import Mathlib

/-!
Verification of the subscriber REST API backend (`src/index.js`, `src/data.js`).

The service is a thin CRUD layer over an external document store.  We embed:

* JavaScript values (`JsValue`) with JS truthiness, since the create handler's
  presence check is `if (!name || !subscribedChannel)` on arbitrary JSON input;
* the store state (`Store`): the collection of subscriber documents plus the
  id-assignment state of the Record Store;
* the four route handlers of `index.js` and the seed script of `data.js`.

Each handler is a pure function of the store's reply, so that the `catch`
branches (store failures) are expressible by passing an `Except.error`.
-/

/-- A JavaScript/JSON value, as far as the handlers inspect request and
response bodies.  Numbers are modelled as integers (no claim depends on
fractional values). -/
inductive JsValue where
  | undefined : JsValue
  | null : JsValue
  | bool (b : Bool) : JsValue
  | num (n : Int) : JsValue
  | str (s : String) : JsValue
  | arr (elems : List JsValue) : JsValue
  | obj (fields : List (String × JsValue)) : JsValue
deriving Repr

/-- JavaScript truthiness: `undefined`, `null`, `false`, `0` and `""` are
falsy; everything else is truthy. -/
def JsValue.truthy : JsValue → Bool
  | .undefined => false
  | .null => false
  | .bool b => b
  | .num n => n != 0
  | .str s => s != ""
  | .arr _ => true
  | .obj _ => true

/-- Property access `v.k`: the first binding of the key in an object,
`undefined` otherwise (as in JS destructuring `const { name } = req.body`). -/
def JsValue.getField : JsValue → String → JsValue
  | .obj fields, k =>
    match fields.find? (fun p => p.1 == k) with
    | some p => p.2
    | none => .undefined
  | _, _ => .undefined

/-- The keys of an object value (empty for non-objects). -/
def JsValue.objKeys : JsValue → List String
  | .obj fields => fields.map (fun p => p.1)
  | _ => []

/-- An error surfaced by the Record Store or driver; only its `message`
is observable in the HTTP responses. -/
structure JsError where
  message : String
deriving Repr, DecidableEq

/-- A persisted subscriber document: the store-assigned id plus the two
schema fields of `subscriberSchema` (`name`, `subscribedChannel`). -/
structure Subscriber where
  id : Nat
  name : String
  subscribedChannel : String
deriving Repr, DecidableEq

/-- Modelled from the spec: the Record Store, an external document database
holding the single collection of subscriber documents.  `id`s are opaque
unique identifiers assigned by the store on creation; we model the store's
id-assignment state as a counter, so issued ids are exactly the `id` fields
of persisted documents. -/
structure Store where
  docs : List Subscriber
  nextId : Nat
deriving Repr, DecidableEq

def Store.empty : Store := ⟨[], 0⟩

/-! ### Identifier strings

The HTTP layer transports ids as strings.  Modelled from the spec: identifiers
are opaque strings assigned by the Record Store; a malformed identifier (one
the store cannot cast back to an id) makes the lookup fail with a cast error.
We render the id counter in decimal and cast digit strings back. -/

/-- The numeric value of one decimal digit character, `none` otherwise. -/
def digitToNat? (c : Char) : Option Nat :=
  if c.isDigit then some (c.toNat - 48) else none

/-- Left-to-right evaluation of a digit string onto an accumulator;
fails on the first non-digit. -/
def evalDigits : Nat → List Char → Option Nat
  | acc, [] => some acc
  | acc, c :: cs =>
    match digitToNat? c with
    | some d => evalDigits (acc * 10 + d) cs
    | none => none

/-- Cast a character list to a natural id: nonempty and all digits. -/
def digitsToNat? : List Char → Option Nat
  | [] => none
  | cs => evalDigits 0 cs

/-- Modelled from the spec: the store's cast of an incoming identifier
string; `none` is a malformed identifier. -/
def castId (s : String) : Option Nat := digitsToNat? s.data

/-- Decimal digits of `n`, most significant first, prepended to `ds`. -/
def natToDigitsAux (n : Nat) (ds : List Char) : List Char :=
  if n < 10 then Char.ofNat (48 + n) :: ds
  else natToDigitsAux (n / 10) (Char.ofNat (48 + n % 10) :: ds)
decreasing_by exact Nat.div_lt_self (by omega) (by omega)

def natToDigits (n : Nat) : List Char := natToDigitsAux n []

/-- The identifier string issued for internal id `n`. -/
def idStr (n : Nat) : String := String.mk (natToDigits n)

/-! ### Record Store operations (external collaborator) -/

/-- Modelled from the spec: `Subscriber.find()` — fetch all documents in the
store's natural return order. -/
def Store.findAll (st : Store) : List Subscriber := st.docs

/-- Modelled from the spec: `Subscriber.findById(id)` — cast the identifier
(throwing a cast error when malformed), then look up exactly one record by
id, `none` when no record has that id. -/
def Store.findById (st : Store) (id : String) : Except JsError (Option Subscriber) :=
  match castId id with
  | none => .error ⟨"Cast to ObjectId failed for value " ++ id⟩
  | some n => .ok (st.docs.find? (fun d => d.id == n))

/-- Schema cast of a value to text per `subscriberSchema` (`type: String`):
strings unchanged, numbers and booleans rendered; `undefined`, `null`, arrays
and objects fail to cast. -/
def castString : JsValue → Option String
  | .str s => some s
  | .num n => some (toString n)
  | .bool b => some (if b then "true" else "false")
  | _ => none

/-- Modelled from the spec: `new Subscriber({name, subscribedChannel})` casts
the field values to text per `subscriberSchema`; `subscriber.save()` enforces
`required: true` (present and non-empty after cast), persists the document at
the end of the collection and assigns the next fresh id. -/
def Store.save (st : Store) (name subscribedChannel : JsValue) :
    Except JsError (Subscriber × Store) :=
  match castString name, castString subscribedChannel with
  | some n, some c =>
    if n = "" ∨ c = "" then .error ⟨"Subscriber validation failed"⟩
    else
      let sub : Subscriber := ⟨st.nextId, n, c⟩
      .ok (sub, ⟨st.docs ++ [sub], st.nextId + 1⟩)
  | _, _ => .error ⟨"Cast to string failed"⟩

/-! ### HTTP layer -/

/-- An HTTP response: status code and JSON body. -/
structure Response where
  status : Nat
  body : JsValue
deriving Repr

/-- JSON serialization of a subscriber document, as sent by `res.json`. -/
def Subscriber.toJson (s : Subscriber) : JsValue :=
  .obj [("_id", .str (idStr s.id)),
        ("name", .str s.name),
        ("subscribedChannel", .str s.subscribedChannel)]

/-- Handler for `GET /api/subscribers/names` (index.js:80-90) as a function of the store's
reply: on success respond 200 with the array of names, on a store error
respond 500 with `{message, error}`. -/
def getNamesHandler (reply : Except JsError (List Subscriber)) : Response :=
  match reply with
  | .ok subscribers =>
    ⟨200, .arr (subscribers.map (fun s => .str s.name))⟩
  | .error e =>
    ⟨500, .obj [("message", .str "Error retrieving subscriber names"),
                ("error", .str e.message)]⟩

/-- Handler for `GET /api/subscribers` (index.js:115-125) as a function of the store's
reply. -/
def listSubscribersHandler (reply : Except JsError (List Subscriber)) : Response :=
  match reply with
  | .ok subscribers =>
    ⟨200, .arr (subscribers.map Subscriber.toJson)⟩
  | .error e =>
    ⟨500, .obj [("message", .str "Error retrieving subscribers"),
                ("error", .str e.message)]⟩

/-- Handler for `GET /api/subscribers/:id` (index.js:157-170) as a function of the store's
reply: a thrown store error gives 500 `{message, error}`, a null result gives
404 `{message}`, a found document is sent back with 200. -/
def getByIdHandler (reply : Except JsError (Option Subscriber)) : Response :=
  match reply with
  | .error e =>
    ⟨500, .obj [("message", .str "Error fetching subscriber details"),
                ("error", .str e.message)]⟩
  | .ok none => ⟨404, .obj [("message", .str "Subscriber not found")]⟩
  | .ok (some s) => ⟨200, s.toJson⟩

/-- Route `GET /api/subscribers/names` against a live store, with an optional
injected store failure standing for the `catch` path. -/
def getNames (st : Store) (storeErr : Option JsError) : Response :=
  getNamesHandler (match storeErr with
    | some e => .error e
    | none => .ok st.findAll)

/-- Route `GET /api/subscribers` against a live store. -/
def getSubscribers (st : Store) (storeErr : Option JsError) : Response :=
  listSubscribersHandler (match storeErr with
    | some e => .error e
    | none => .ok st.findAll)

/-- Route `GET /api/subscribers/:id` against a live store. -/
def getSubscriberById (st : Store) (id : String) : Response :=
  getByIdHandler (st.findById id)

/-- The outcome of `POST /api/subscribers`: the response, the store after the
request, and whether the handler reached the Record Store (entered the `try`
block) at all. -/
structure CreateResult where
  response : Response
  store : Store
  storeAccessed : Bool
deriving Repr

/-- Handler for `POST /api/subscribers` (index.js:197-214): destructure `name` and
`subscribedChannel` from the body, reject falsy values with 400 before any
store access, otherwise attempt persistence; a save error gives 500
`{message, error}`, success gives 201 with the created document.
`storeErr` injects a Record Store failure on the save. -/
def postSubscriber (st : Store) (body : JsValue) (storeErr : Option JsError) :
    CreateResult :=
  let name := body.getField "name"
  let subscribedChannel := body.getField "subscribedChannel"
  if !name.truthy || !subscribedChannel.truthy then
    ⟨⟨400, .obj [("message", .str "Name and subscribedChannel are required")]⟩,
      st, false⟩
  else
    match storeErr with
    | some e =>
      ⟨⟨500, .obj [("message", .str "Error creating subscriber"),
                   ("error", .str e.message)]⟩, st, true⟩
    | none =>
      match st.save name subscribedChannel with
      | .ok (sub, st') => ⟨⟨201, sub.toJson⟩, st', true⟩
      | .error e =>
        ⟨⟨500, .obj [("message", .str "Error creating subscriber"),
                     ("error", .str e.message)]⟩, st, true⟩

/-! ### Seed script (`data.js`) -/

/-- The three fixed records of `data.js`. -/
def seedData : List (String × String) :=
  [("Jeread Krus", "CNET"),
   ("Lucifer", "Sentex"),
   ("Alice Doe", "Tech Talk")]

/-- Modelled from the spec: one insertion performed by
`Subscriber.insertMany` — schema-validated (`required: true`) and assigned a
fresh id by the store; a record failing validation is not persisted. -/
def Store.insertOne (st : Store) (name subscribedChannel : String) : Store :=
  if name = "" ∨ subscribedChannel = "" then st
  else ⟨st.docs ++ [⟨st.nextId, name, subscribedChannel⟩], st.nextId + 1⟩

/-- Modelled from the spec: `Subscriber.insertMany(data)` inserts the records
in order, without checking for pre-existing duplicates. -/
def Store.insertMany (st : Store) (recs : List (String × String)) : Store :=
  recs.foldl (fun s r => s.insertOne r.1 r.2) st

/-- Running `data.js` against a store. -/
def runSeedScript (st : Store) : Store := st.insertMany seedData

/-! ### Store invariants -/

/-- Every persisted subscriber has non-empty `name` and `subscribedChannel`. -/
def Store.Inv (st : Store) : Prop :=
  ∀ d ∈ st.docs, d.name ≠ "" ∧ d.subscribedChannel ≠ ""

/-- Well-formedness of the id-assignment: every persisted id was issued
before the current counter value (hence fresh ids are distinct from all
persisted ones). -/
def Store.WF (st : Store) : Prop :=
  ∀ d ∈ st.docs, d.id < st.nextId

/-- The element-wise `name` projection of an array of objects, used to relate
the two list endpoints. -/
def projectNames : JsValue → JsValue
  | .arr l => .arr (l.map (fun v => v.getField "name"))
  | v => v

/-! ### Lemmas about the identifier codec -/

/-- The numeric value denoted by the digits of `n` appended to an
accumulator, mirroring the traversal order of `natToDigitsAux`. -/
def pushDigits (acc n : Nat) : Nat :=
  if n < 10 then acc * 10 + n else pushDigits acc (n / 10) * 10 + n % 10
decreasing_by exact Nat.div_lt_self (by omega) (by omega)

theorem digitToNat?_ofNat (d : Nat) (h : d < 10) :
    digitToNat? (Char.ofNat (48 + d)) = some d := by
  interval_cases d <;> decide

theorem evalDigits_natToDigitsAux (n : Nat) : ∀ acc ds,
    evalDigits acc (natToDigitsAux n ds) = evalDigits (pushDigits acc n) ds := by
  induction n using Nat.strong_induction_on with
  | _ n ih =>
    intro acc ds
    rw [natToDigitsAux, pushDigits]
    by_cases h : n < 10
    · simp only [if_pos h, evalDigits, digitToNat?_ofNat n h]
    · simp only [if_neg h]
      rw [ih (n / 10) (Nat.div_lt_self (by omega) (by omega))]
      simp only [evalDigits, digitToNat?_ofNat (n % 10) (Nat.mod_lt _ (by omega))]

theorem pushDigits_zero (n : Nat) : pushDigits 0 n = n := by
  induction n using Nat.strong_induction_on with
  | _ n ih =>
    rw [pushDigits]
    by_cases h : n < 10
    · simp [h]
    · rw [if_neg h, ih (n / 10) (Nat.div_lt_self (by omega) (by omega))]
      omega

theorem natToDigitsAux_ne_nil (n : Nat) : ∀ ds, natToDigitsAux n ds ≠ [] := by
  induction n using Nat.strong_induction_on with
  | _ n ih =>
    intro ds
    rw [natToDigitsAux]
    by_cases h : n < 10
    · simp [h]
    · rw [if_neg h]
      exact ih (n / 10) (Nat.div_lt_self (by omega) (by omega)) _

/-- Round trip: the identifier string issued for an internal id casts back to
that id, so issued identifiers are never malformed. -/
theorem castId_idStr (n : Nat) : castId (idStr n) = some n := by
  show digitsToNat? (natToDigits n) = some n
  have hne := natToDigitsAux_ne_nil n []
  unfold natToDigits
  cases h : natToDigitsAux n [] with
  | nil => exact absurd h hne
  | cons c cs =>
    have hd : digitsToNat? (c :: cs) = evalDigits 0 (c :: cs) := rfl
    rw [hd, ← h, evalDigits_natToDigitsAux n 0 [], pushDigits_zero, evalDigits]

theorem idStr_injective {a b : Nat} (h : idStr a = idStr b) : a = b := by
  have ha := castId_idStr a
  rw [h, castId_idStr b] at ha
  exact (Option.some.inj ha).symm

/-! ### Helper lemmas -/

theorem toJson_getField_name (s : Subscriber) :
    s.toJson.getField "name" = .str s.name := rfl

theorem toJson_getField_channel (s : Subscriber) :
    s.toJson.getField "subscribedChannel" = .str s.subscribedChannel := rfl

theorem toJson_getField_id (s : Subscriber) :
    s.toJson.getField "_id" = .str (idStr s.id) := rfl

/-- Anatomy of a successful save: the document it returns carries the fresh
id and non-empty fields, is appended to the collection, and the id counter
advances. -/
theorem save_ok_spec {st : Store} {nv cv : JsValue} {sub : Subscriber} {st' : Store}
    (h : st.save nv cv = .ok (sub, st')) :
    sub.id = st.nextId ∧ sub.name ≠ "" ∧ sub.subscribedChannel ≠ "" ∧
    st'.docs = st.docs ++ [sub] ∧ st'.nextId = st.nextId + 1 := by
  simp only [Store.save] at h
  split at h
  · split at h
    · exact absurd h (by simp)
    · rename_i n c hcn hne
      rw [Except.ok.injEq, Prod.mk.injEq] at h
      obtain ⟨rfl, rfl⟩ := h
      push_neg at hne
      exact ⟨rfl, hne.1, hne.2, rfl, rfl⟩
  · exact absurd h (by simp)

/-- Saving two non-empty strings always succeeds and appends the new
document. -/
theorem save_str {st : Store} {n c : String} (hn : n ≠ "") (hc : c ≠ "") :
    st.save (.str n) (.str c) =
      .ok (⟨st.nextId, n, c⟩, ⟨st.docs ++ [⟨st.nextId, n, c⟩], st.nextId + 1⟩) := by
  simp [Store.save, castString, hn, hc]

/-- A fresh id is found nowhere in a collection whose ids are all smaller. -/
theorem find?_id_fresh {l : List Subscriber} {m : Nat} (h : ∀ d ∈ l, d.id < m) :
    l.find? (fun d => d.id == m) = none :=
  List.find?_eq_none.mpr (fun d hd => by simp [Nat.ne_of_lt (h d hd)])

/-- One seed insertion preserves the non-empty-fields invariant. -/
theorem insertOne_inv {st : Store} (hinv : st.Inv) {n c : String} :
    (st.insertOne n c).Inv := by
  unfold Store.insertOne
  split
  · exact hinv
  · rename_i h
    push_neg at h
    intro d hd
    rcases List.mem_append.mp hd with hd | hd
    · exact hinv d hd
    · rcases List.mem_singleton.mp hd with rfl
      exact ⟨h.1, h.2⟩

/-- Full evaluation of the create handler on a body carrying two non-empty
string fields: 201, the new document echoed back, the document appended and
the id counter advanced. -/
theorem postSubscriber_str_ok (st : Store) {name ch : String}
    (hn : name ≠ "") (hc : ch ≠ "") :
    postSubscriber st (.obj [("name", .str name), ("subscribedChannel", .str ch)]) none =
      ⟨⟨201, Subscriber.toJson ⟨st.nextId, name, ch⟩⟩,
       ⟨st.docs ++ [⟨st.nextId, name, ch⟩], st.nextId + 1⟩, true⟩ := by
  have h1 : (JsValue.obj [("name", .str name), ("subscribedChannel", .str ch)]).getField
      "name" = .str name := rfl
  have h2 : (JsValue.obj [("name", .str name), ("subscribedChannel", .str ch)]).getField
      "subscribedChannel" = .str ch := rfl
  simp [postSubscriber, h1, h2, JsValue.truthy, hn, hc, save_str hn hc]

/-! ### The claims -/

/-- C1: for every valid pair of non-empty strings, creating a subscriber and
then fetching it by the id returned by the creation yields a 200 response
whose record has the name and subscribedChannel supplied at creation. -/
theorem create_then_fetch (st : Store) (name ch : String)
    (hwf : st.WF) (hn : name ≠ "") (hc : ch ≠ "") :
    ∃ idv : String,
      (postSubscriber st (.obj [("name", .str name), ("subscribedChannel", .str ch)])
        none).response.status = 201 ∧
      (postSubscriber st (.obj [("name", .str name), ("subscribedChannel", .str ch)])
        none).response.body.getField "_id" = .str idv ∧
      (getSubscriberById (postSubscriber st
        (.obj [("name", .str name), ("subscribedChannel", .str ch)]) none).store
        idv).status = 200 ∧
      (getSubscriberById (postSubscriber st
        (.obj [("name", .str name), ("subscribedChannel", .str ch)]) none).store
        idv).body.getField "name" = .str name ∧
      (getSubscriberById (postSubscriber st
        (.obj [("name", .str name), ("subscribedChannel", .str ch)]) none).store
        idv).body.getField "subscribedChannel" = .str ch := by
  refine ⟨idStr st.nextId, ?_⟩
  rw [postSubscriber_str_ok st hn hc]
  have hfind : Store.findById ⟨st.docs ++ [⟨st.nextId, name, ch⟩], st.nextId + 1⟩
      (idStr st.nextId) = .ok (some ⟨st.nextId, name, ch⟩) := by
    simp [Store.findById, castId_idStr, List.find?_append, find?_id_fresh hwf]
  have hget : getSubscriberById ⟨st.docs ++ [⟨st.nextId, name, ch⟩], st.nextId + 1⟩
      (idStr st.nextId) = ⟨200, Subscriber.toJson ⟨st.nextId, name, ch⟩⟩ := by
    rw [getSubscriberById, hfind]
    rfl
  exact ⟨rfl, rfl, by rw [hget], by simp [hget, toJson_getField_name],
    by simp [hget, toJson_getField_channel]⟩

/-- Witness for C1 at a concrete store and field values. -/
theorem create_then_fetch_w :
    ∃ idv : String,
      (postSubscriber Store.empty
        (.obj [("name", .str "Ana"), ("subscribedChannel", .str "X")])
        none).response.status = 201 ∧
      (postSubscriber Store.empty
        (.obj [("name", .str "Ana"), ("subscribedChannel", .str "X")])
        none).response.body.getField "_id" = .str idv ∧
      (getSubscriberById (postSubscriber Store.empty
        (.obj [("name", .str "Ana"), ("subscribedChannel", .str "X")]) none).store
        idv).status = 200 ∧
      (getSubscriberById (postSubscriber Store.empty
        (.obj [("name", .str "Ana"), ("subscribedChannel", .str "X")]) none).store
        idv).body.getField "name" = .str "Ana" ∧
      (getSubscriberById (postSubscriber Store.empty
        (.obj [("name", .str "Ana"), ("subscribedChannel", .str "X")]) none).store
        idv).body.getField "subscribedChannel" = .str "X" :=
  create_then_fetch Store.empty "Ana" "X" (by simp [Store.WF, Store.empty])
    (by decide) (by decide)

/-- C2: a create request whose name or subscribedChannel is missing or the
empty string yields exactly the 400 validation response, reaches the store
not at all, and leaves the store unchanged. -/
theorem create_validation_rejects (st : Store) (body : JsValue) (e : Option JsError)
    (h : body.getField "name" = .undefined ∨ body.getField "name" = .str "" ∨
         body.getField "subscribedChannel" = .undefined ∨
         body.getField "subscribedChannel" = .str "") :
    postSubscriber st body e =
      ⟨⟨400, .obj [("message", .str "Name and subscribedChannel are required")]⟩,
        st, false⟩ := by
  rcases h with h | h | h | h <;> simp [postSubscriber, h, JsValue.truthy]

/-- Witness for C2: a body missing subscribedChannel. -/
theorem create_validation_rejects_w :
    postSubscriber Store.empty (.obj [("name", .str "Ana")]) none =
      ⟨⟨400, .obj [("message", .str "Name and subscribedChannel are required")]⟩,
        Store.empty, false⟩ :=
  create_validation_rejects Store.empty _ none (Or.inr (Or.inr (Or.inl rfl)))

/-- C3, counterexample: the claim promises a 404 NotFound and never a 500 for
every identifier string never issued by the store, regardless of its form;
but the malformed identifier "xyz" (never issued: the store is empty) is
answered with a 500 retrieval failure, not a 404. -/
theorem malformed_id_gives_500 :
    (getSubscriberById Store.empty "xyz").status = 500 ∧
    (getSubscriberById Store.empty "xyz").status ≠ 404 := by
  constructor
  · rfl
  · intro h
    rw [show (getSubscriberById Store.empty "xyz").status = 500 from rfl] at h
    omega

/-- C3, amended: for every identifier string the store can cast to a valid id
and that was never issued, get-by-id yields exactly the 404 NotFound outcome
(in particular never a 500 StoreFailure); malformed identifier strings are
instead answered with a retrieval failure. -/
theorem unissued_wellformed_id_gives_404 (st : Store) (id : String) (n : Nat)
    (hcast : castId id = some n) (hnever : ∀ d ∈ st.docs, d.id ≠ n) :
    getSubscriberById st id = ⟨404, .obj [("message", .str "Subscriber not found")]⟩ := by
  have hfind : st.docs.find? (fun d => d.id == n) = none :=
    List.find?_eq_none.mpr (fun d hd => by simp [hnever d hd])
  simp only [getSubscriberById, Store.findById, hcast, hfind, getByIdHandler]

/-- Witness for the amended C3: a well-formed but never-issued id on the
empty store. -/
theorem unissued_wellformed_id_gives_404_w :
    getSubscriberById Store.empty "0" =
      ⟨404, .obj [("message", .str "Subscriber not found")]⟩ :=
  unissued_wellformed_id_gives_404 Store.empty "0" 0 (by decide)
    (by simp [Store.empty])

/-- C4: over any store state, the list-names result is exactly the
element-wise name projection of the list-subscribers result. -/
theorem names_is_projection (st : Store) :
    (getNames st none).body = projectNames (getSubscribers st none).body := by
  simp only [getNames, getSubscribers, getNamesHandler, listSubscribersHandler,
    Store.findAll, projectNames, List.map_map]
  have h : ((fun v => JsValue.getField v "name") ∘ Subscriber.toJson) =
      (fun s => JsValue.str s.name) := funext (fun _ => rfl)
  rw [h]

/-- C5: the error-to-HTTP mapping — a store failure on either list operation
or on get-by-id gives 500 with the underlying error message in the body, a
missing record gives 404 with a message body, a validation failure on create
gives 400 with a message body, and a store failure during save gives 500 with
the underlying error message. -/
theorem error_status_mapping :
    (∀ e, getNamesHandler (.error e) =
      ⟨500, .obj [("message", .str "Error retrieving subscriber names"),
                  ("error", .str e.message)]⟩) ∧
    (∀ e, listSubscribersHandler (.error e) =
      ⟨500, .obj [("message", .str "Error retrieving subscribers"),
                  ("error", .str e.message)]⟩) ∧
    (∀ e, getByIdHandler (.error e) =
      ⟨500, .obj [("message", .str "Error fetching subscriber details"),
                  ("error", .str e.message)]⟩) ∧
    getByIdHandler (.ok none) = ⟨404, .obj [("message", .str "Subscriber not found")]⟩ ∧
    (∀ st body e,
      ((body.getField "name").truthy = false ∨
       (body.getField "subscribedChannel").truthy = false) →
      (postSubscriber st body e).response =
        ⟨400, .obj [("message", .str "Name and subscribedChannel are required")]⟩) ∧
    (∀ st body err,
      (body.getField "name").truthy = true →
      (body.getField "subscribedChannel").truthy = true →
      (postSubscriber st body (some err)).response =
        ⟨500, .obj [("message", .str "Error creating subscriber"),
                    ("error", .str err.message)]⟩) ∧
    (∀ st body er,
      (body.getField "name").truthy = true →
      (body.getField "subscribedChannel").truthy = true →
      st.save (body.getField "name") (body.getField "subscribedChannel") = .error er →
      (postSubscriber st body none).response =
        ⟨500, .obj [("message", .str "Error creating subscriber"),
                    ("error", .str er.message)]⟩) := by
  refine ⟨fun e => rfl, fun e => rfl, fun e => rfl, rfl, ?_, ?_, ?_⟩
  · intro st body e h
    rcases h with h | h <;> simp [postSubscriber, h]
  · intro st body err h1 h2
    simp [postSubscriber, h1, h2]
  · intro st body er h1 h2 hsave
    simp [postSubscriber, h1, h2, hsave]

/-- Witness for C5 at concrete errors and bodies. -/
theorem error_status_mapping_w :
    getNamesHandler (.error ⟨"boom"⟩) =
      ⟨500, .obj [("message", .str "Error retrieving subscriber names"),
                  ("error", .str "boom")]⟩ ∧
    (postSubscriber Store.empty (.obj []) none).response =
      ⟨400, .obj [("message", .str "Name and subscribedChannel are required")]⟩ ∧
    (postSubscriber Store.empty
        (.obj [("name", .str "Ana"), ("subscribedChannel", .str "X")])
        (some ⟨"db down"⟩)).response =
      ⟨500, .obj [("message", .str "Error creating subscriber"),
                  ("error", .str "db down")]⟩ :=
  ⟨error_status_mapping.1 ⟨"boom"⟩,
   error_status_mapping.2.2.2.2.1 Store.empty (.obj []) none (Or.inl rfl),
   error_status_mapping.2.2.2.2.2.1 Store.empty _ ⟨"db down"⟩ rfl rfl⟩

/-- C6: two sequential creations with identical non-empty field values both
succeed with 201 and return distinct ids — no uniqueness constraint is
enforced. -/
theorem duplicate_creates_distinct_ids (st : Store) (name ch : String)
    (hn : name ≠ "") (hc : ch ≠ "") :
    (postSubscriber st (.obj [("name", .str name), ("subscribedChannel", .str ch)])
      none).response.status = 201 ∧
    (postSubscriber (postSubscriber st
        (.obj [("name", .str name), ("subscribedChannel", .str ch)]) none).store
      (.obj [("name", .str name), ("subscribedChannel", .str ch)])
      none).response.status = 201 ∧
    (postSubscriber st (.obj [("name", .str name), ("subscribedChannel", .str ch)])
      none).response.body.getField "_id" ≠
    (postSubscriber (postSubscriber st
        (.obj [("name", .str name), ("subscribedChannel", .str ch)]) none).store
      (.obj [("name", .str name), ("subscribedChannel", .str ch)])
      none).response.body.getField "_id" := by
  simp only [postSubscriber_str_ok st hn hc]
  simp only [postSubscriber_str_ok ⟨st.docs ++ [⟨st.nextId, name, ch⟩], st.nextId + 1⟩ hn hc]
  refine ⟨trivial, trivial, ?_⟩
  intro heq
  rw [toJson_getField_id, toJson_getField_id] at heq
  have h := idStr_injective (JsValue.str.inj heq)
  simp at h

/-- Witness for C6 at a concrete store and field values. -/
theorem duplicate_creates_distinct_ids_w :
    (postSubscriber Store.empty
      (.obj [("name", .str "Ana"), ("subscribedChannel", .str "X")])
      none).response.status = 201 ∧
    (postSubscriber (postSubscriber Store.empty
        (.obj [("name", .str "Ana"), ("subscribedChannel", .str "X")]) none).store
      (.obj [("name", .str "Ana"), ("subscribedChannel", .str "X")])
      none).response.status = 201 ∧
    (postSubscriber Store.empty
      (.obj [("name", .str "Ana"), ("subscribedChannel", .str "X")])
      none).response.body.getField "_id" ≠
    (postSubscriber (postSubscriber Store.empty
        (.obj [("name", .str "Ana"), ("subscribedChannel", .str "X")]) none).store
      (.obj [("name", .str "Ana"), ("subscribedChannel", .str "X")])
      none).response.body.getField "_id" :=
  duplicate_creates_distinct_ids Store.empty "Ana" "X" (by decide) (by decide)

/-- C7: on an empty store, list-names answers 200 with the empty array; in
general both list operations answer 200 with the (possibly empty) sequence
on success. -/
theorem list_ops_succeed :
    getNames Store.empty none = ⟨200, .arr []⟩ ∧
    (∀ st, getNames st none = ⟨200, .arr (st.docs.map (fun s => .str s.name))⟩) ∧
    (∀ st, getSubscribers st none = ⟨200, .arr (st.docs.map Subscriber.toJson)⟩) :=
  ⟨rfl, fun _ => rfl, fun _ => rfl⟩

/-- C8: the invariant that every persisted subscriber has non-empty name and
subscribedChannel is preserved by the create operation and by the seed
script. -/
theorem nonempty_fields_invariant :
    (∀ st body e, st.Inv → (postSubscriber st body e).store.Inv) ∧
    (∀ st, st.Inv → (runSeedScript st).Inv) := by
  constructor
  · intro st body e hinv
    by_cases hb : (!(body.getField "name").truthy ||
        !(body.getField "subscribedChannel").truthy) = true
    · simpa [postSubscriber, hb] using hinv
    · simp only [postSubscriber, if_neg hb]
      cases e with
      | some err => exact hinv
      | none =>
        cases hsave : st.save (body.getField "name") (body.getField "subscribedChannel") with
        | error er => simpa using hinv
        | ok p =>
          cases p with
          | mk sub st' =>
            obtain ⟨-, hn, hc, hdocs, -⟩ := save_ok_spec hsave
            intro d hd
            rw [hdocs] at hd
            rcases List.mem_append.mp hd with hd | hd
            · exact hinv d hd
            · rcases List.mem_singleton.mp hd with rfl
              exact ⟨hn, hc⟩
  · intro st hinv
    show (((st.insertOne "Jeread Krus" "CNET").insertOne "Lucifer" "Sentex").insertOne
      "Alice Doe" "Tech Talk").Inv
    exact insertOne_inv (insertOne_inv (insertOne_inv hinv))

/-- Witness for C8 at the empty store. -/
theorem nonempty_fields_invariant_w :
    (postSubscriber Store.empty (.obj []) none).store.Inv ∧
    (runSeedScript Store.empty).Inv :=
  ⟨nonempty_fields_invariant.1 Store.empty (.obj []) none
     (by simp [Store.Inv, Store.empty]),
   nonempty_fields_invariant.2 Store.empty (by simp [Store.Inv, Store.empty])⟩

/-- C9: the presence check rejects with 400 exactly the bodies whose name or
subscribedChannel is a JS-falsy value (absent, null, false, 0 or the empty
string); any pair of truthy values — of any type — passes the check and the
handler proceeds to the store. -/
theorem presence_check_exactly_falsy :
    (∀ v : JsValue, v.truthy = false ↔
      (v = .undefined ∨ v = .null ∨ v = .bool false ∨ v = .num 0 ∨ v = .str "")) ∧
    (∀ st body e,
      ((postSubscriber st body e).response.status = 400 ↔
        ((body.getField "name").truthy = false ∨
         (body.getField "subscribedChannel").truthy = false))) ∧
    (∀ st body e,
      (body.getField "name").truthy = true →
      (body.getField "subscribedChannel").truthy = true →
      (postSubscriber st body e).storeAccessed = true) := by
  refine ⟨?_, ?_, ?_⟩
  · intro v
    cases v <;> simp [JsValue.truthy]
  · intro st body e
    cases hn : (body.getField "name").truthy <;>
      cases hc : (body.getField "subscribedChannel").truthy <;>
      simp [postSubscriber, hn, hc]
    cases e with
    | some err => simp
    | none =>
      cases hsave : st.save (body.getField "name") (body.getField "subscribedChannel") with
      | ok p => cases p with | mk sub st' => simp
      | error er => simp
  · intro st body e h1 h2
    simp only [postSubscriber, h1, h2]
    cases e with
    | some err => simp
    | none =>
      cases hsave : st.save (body.getField "name") (body.getField "subscribedChannel") with
      | ok p => cases p with | mk sub st' => simp [hsave]
      | error er => simp [hsave]

/-- Witness for C9: non-string truthy values (a number and a boolean) pass
the presence check and reach the store. -/
theorem presence_check_exactly_falsy_w :
    (postSubscriber Store.empty
       (.obj [("name", .num 5), ("subscribedChannel", .bool true)]) none).storeAccessed
      = true :=
  presence_check_exactly_falsy.2.2 Store.empty _ none rfl rfl

/-- C10: the create handler reads only the name and subscribedChannel fields
of the body — two bodies agreeing on them are indistinguishable — and on
success both the returned entity and the persisted record consist of exactly
the store-assigned id plus those two fields. -/
theorem create_ignores_extra_fields :
    (∀ st e body₁ body₂,
      body₁.getField "name" = body₂.getField "name" →
      body₁.getField "subscribedChannel" = body₂.getField "subscribedChannel" →
      postSubscriber st body₁ e = postSubscriber st body₂ e) ∧
    (∀ st body e, (postSubscriber st body e).response.status = 201 →
      ∃ sub : Subscriber,
        (postSubscriber st body e).response.body = sub.toJson ∧
        (postSubscriber st body e).response.body.objKeys =
          ["_id", "name", "subscribedChannel"] ∧
        (postSubscriber st body e).store.docs = st.docs ++ [sub]) := by
  constructor
  · intro st e body₁ body₂ h1 h2
    simp only [postSubscriber, h1, h2]
  · intro st body e h
    by_cases hb : (!(body.getField "name").truthy ||
        !(body.getField "subscribedChannel").truthy) = true
    · rw [show (postSubscriber st body e).response.status = 400 by
        simp [postSubscriber, hb]] at h
      omega
    · simp only [postSubscriber, if_neg hb] at h ⊢
      cases e with
      | some err => simp at h
      | none =>
        cases hsave : st.save (body.getField "name")
            (body.getField "subscribedChannel") with
        | error er => simp [hsave] at h
        | ok p =>
          cases p with
          | mk sub st' =>
            obtain ⟨-, -, -, hdocs, -⟩ := save_ok_spec hsave
            exact ⟨sub, by simp [hsave], by simp [hsave, JsValue.objKeys,
              Subscriber.toJson], by simp [hsave, hdocs]⟩

/-- Witness for C10: extra body fields (admin, age) do not change the
outcome. -/
theorem create_ignores_extra_fields_w :
    postSubscriber Store.empty
      (.obj [("name", .str "Ana"), ("subscribedChannel", .str "X"),
             ("admin", .bool true), ("age", .num 33)]) none =
    postSubscriber Store.empty
      (.obj [("name", .str "Ana"), ("subscribedChannel", .str "X")]) none :=
  create_ignores_extra_fields.1 Store.empty none _ _ rfl rfl
